import Mathlib

/-!
Verification of the JNI bridge `opencv_jni.cpp`
(`Java_com_hsl_videstabilization_util_OpenCVJNI_getOpenCVVersion` and
`Java_com_hsl_videstabilization_util_OpenCVJNI_convertToGray`).

The bridge is embedded shallowly.  An image buffer (`cv::Mat`) is a record
of its dimensions, channel count and interleaved pixel data; the mutable
environment of a call is a `World` holding a heap of buffers addressed by
numeric handles (the `jlong` Mat addresses), the diagnostic log written by
`__android_log_print`, and — as instrumentation for frame reasoning — the
list of operands that have been handed to the external conversion routine.

The OpenCV library itself is not part of the repository, so its two entry
points used by the bridge (`cv::getVersionString` and
`cv::cvtColor(..., COLOR_RGBA2GRAY)`) are modelled from the spec: a pure
constant lookup, and the fixed RGBA-to-gray luma transform with the
library's own format validation raising a `cv::Exception`.
-/

/-- An image buffer: `cv::Mat` reduced to the fields the bridge's claims
are about — dimensions, channel count, and interleaved pixel data. -/
structure Mat where
  rows : Nat
  cols : Nat
  channels : Nat
  data : List Nat
deriving DecidableEq

/-- The exception type thrown by the external library (`cv::Exception`),
carrying only the message text (`e.what()`). -/
structure CvException where
  what : String
deriving DecidableEq

/-- Log severity of `__android_log_print`: `ANDROID_LOG_INFO` (LOGI) or
`ANDROID_LOG_ERROR` (LOGE). -/
inductive LogLevel where
  | info : LogLevel
  | error : LogLevel
deriving DecidableEq

/-- One diagnostic log line: severity, component tag, message text. -/
structure LogEntry where
  level : LogLevel
  tag : String
  msg : String
deriving DecidableEq

/-- The fixed component identifier: `#define TAG "OpenCV_JNI"`. -/
def logTag : String := "OpenCV_JNI"

/-- Message of the first LOGI in `getOpenCVVersion`. -/
def msgGettingVersion : String := "Getting OpenCV version"

/-- Head of the second LOGI in `getOpenCVVersion` (`"OpenCV version: %s"`). -/
def msgOpenCVVersionIs : String := "OpenCV version: "

/-- Head of the LOGE in `convertToGray` (`"OpenCV error: %s"`). -/
def msgOpenCVError : String := "OpenCV error: "

/-- The mutable environment of one bridge call: the heap of caller-owned
buffers addressed by numeric handles, the platform diagnostic log, and the
record of operands passed to the external conversion routine (the latter is
instrumentation that witnesses each invocation of the library). -/
structure World where
  heap : Nat → Mat
  log : List LogEntry
  libCalls : List Mat

/-- Modelled from the spec: the external library's fixed luma weighting
(the well-known BT.601 fixed-point weights used by the vision library for
8-bit data), mapping one pixel's red, green and blue components to a single
intensity value.  The alpha component of an RGBA pixel takes no part. -/
def lumaPixel (r g b : Nat) : Nat :=
  (r * 4899 + g * 9617 + b * 1868 + 8192) / 16384

/-- Modelled from the spec: the data plane of the fixed RGBA-to-gray
conversion — each interleaved 4-tuple (red, green, blue, alpha) becomes one
intensity value; the fourth (alpha) component is discarded. -/
def grayData : List Nat → List Nat
  | r :: g :: b :: _ :: rest => lumaPixel r g b :: grayData rest
  | _ => []

/-- Modelled from the spec: message of the library exception raised when
the source buffer does not carry the 4 channels the fixed conversion mode
expects. -/
def msgBadChannels : String := "cvtColor: invalid number of channels"

/-- Modelled from the spec: message of the library exception raised when
the source buffer's data plane does not match its declared dimensions. -/
def msgBadSize : String := "cvtColor: buffer size mismatch"

/-- Modelled from the spec: `cv::cvtColor(src, dst, COLOR_RGBA2GRAY)`, the
single library call the bridge delegates to.  The library performs its own
format validation (4-channel source of consistent size) and raises a
`cv::Exception` when it fails; on success it produces the single-channel
destination of the same dimensions holding the fixed luma transform of the
source pixels. -/
def cvtColorRGBA2GRAY (src : Mat) : Except CvException Mat :=
  if src.channels ≠ 4 then
    Except.error ⟨msgBadChannels⟩
  else if src.data.length ≠ src.rows * src.cols * 4 then
    Except.error ⟨msgBadSize⟩
  else
    Except.ok ⟨src.rows, src.cols, 1, grayData src.data⟩

/-- Modelled from the spec: `cv::getVersionString()`, a pure in-memory
constant lookup returning the linked library's version identifier; the
concrete value stands for the linked build's version string. -/
def cvVersionString : String := "4.8.0"

/-- Validity of a source buffer for the fixed conversion: 4 interleaved
channels and a data plane matching the declared dimensions. -/
def Mat.validRGBA (m : Mat) : Bool :=
  m.channels == 4 && m.data.length == m.rows * m.cols * 4

/-- Validity of a destination buffer relative to a source: single channel,
matching dimensions, correctly sized data plane. -/
def Mat.validGrayFor (d s : Mat) : Bool :=
  d.channels == 1 && d.rows == s.rows && d.cols == s.cols &&
    d.data.length == s.rows * s.cols

/-- `Java_com_hsl_videstabilization_util_OpenCVJNI_getOpenCVVersion`:
LOGI before the query, `cv::getVersionString()`, LOGI after, and the
string is handed back across the boundary. -/
def getOpenCVVersion (w : World) : String × World :=
  let version := cvVersionString
  (version,
    { heap := w.heap,
      log := w.log ++
        [⟨LogLevel.info, logTag, msgGettingVersion⟩,
         ⟨LogLevel.info, logTag, msgOpenCVVersionIs ++ version⟩],
      libCalls := w.libCalls })

/-- `Java_com_hsl_videstabilization_util_OpenCVJNI_convertToGray`: both
`jlong` handles are reinterpreted and dereferenced unconditionally, the
source is handed to `cv::cvtColor(rgba, gray, COLOR_RGBA2GRAY)` — recorded
in `libCalls` — and the result is mapped at the boundary: `JNI_TRUE` on
success with the destination cell overwritten, `JNI_FALSE` after a caught
`cv::Exception`, whose message is LOGE'd and otherwise discarded. -/
def convertToGray (w : World) (matAddrRgba matAddrGray : Nat) : Bool × World :=
  match cvtColorRGBA2GRAY (w.heap matAddrRgba) with
  | Except.ok g =>
      (true,
        { heap := fun a => if a = matAddrGray then g else w.heap a,
          log := w.log,
          libCalls := w.libCalls ++ [w.heap matAddrRgba] })
  | Except.error e =>
      (false,
        { heap := w.heap,
          log := w.log ++ [⟨LogLevel.error, logTag, msgOpenCVError ++ e.what⟩],
          libCalls := w.libCalls ++ [w.heap matAddrRgba] })

/-- A concrete 1-by-1 RGBA source buffer, for witnesses. -/
def matRgbaSample : Mat := ⟨1, 1, 4, [10, 20, 30, 40]⟩

/-- A concrete 1-by-1 single-channel destination buffer, for witnesses. -/
def matGraySample : Mat := ⟨1, 1, 1, [0]⟩

/-- A concrete malformed (3-channel) buffer, for witnesses. -/
def matBadSample : Mat := ⟨1, 1, 3, [10, 20, 30]⟩

/-- A concrete heap: handle 0 holds the RGBA sample, handle 1 the gray
destination, every other handle the malformed buffer. -/
def heapSample : Nat → Mat :=
  fun a => if a = 0 then matRgbaSample else if a = 1 then matGraySample
           else matBadSample

/-- A concrete world over `heapSample` with empty log and call record. -/
def worldSample : World := ⟨heapSample, [], []⟩

/- ### Helper lemmas -/

/-- On a valid source the modelled library call succeeds and produces the
luma transform of the source data. -/
theorem cvtColor_ok_of_valid (m : Mat) (h : m.validRGBA = true) :
    cvtColorRGBA2GRAY m = Except.ok ⟨m.rows, m.cols, 1, grayData m.data⟩ := by
  unfold Mat.validRGBA at h
  rw [Bool.and_eq_true, beq_iff_eq, beq_iff_eq] at h
  unfold cvtColorRGBA2GRAY
  simp [h.1, h.2]

/- ### Claims -/

/-- C1: for every invocation of `convertToGray`, the underlying conversion
call either succeeds — and the call returns `true` — or raises a library
exception, which is caught at the boundary and converted to a `false`
return; the return type is a plain boolean, so no exception or error code
crosses the boundary. -/
theorem convertToGray_exception_boundary (w : World) (a b : Nat) :
    (∃ g, cvtColorRGBA2GRAY (w.heap a) = Except.ok g ∧
      (convertToGray w a b).1 = true) ∨
    (∃ e, cvtColorRGBA2GRAY (w.heap a) = Except.error e ∧
      (convertToGray w a b).1 = false) := by
  cases hcv : cvtColorRGBA2GRAY (w.heap a) with
  | ok g => exact Or.inl ⟨g, rfl, by simp [convertToGray, hcv]⟩
  | error e => exact Or.inr ⟨e, rfl, by simp [convertToGray, hcv]⟩

/-- C2: on a validly-allocated 4-channel source and a correctly-sized
single-channel destination of matching dimensions, `convertToGray` returns
`true` and afterwards the destination cell holds exactly the library's
fixed luma transform of the source pixels. -/
theorem convertToGray_valid_success (w : World) (aR aG : Nat)
    (hsrc : (w.heap aR).validRGBA = true)
    (hdst : ((w.heap aG).validGrayFor (w.heap aR)) = true) :
    (convertToGray w aR aG).1 = true ∧
    (convertToGray w aR aG).2.heap aG =
      ⟨(w.heap aR).rows, (w.heap aR).cols, 1, grayData (w.heap aR).data⟩ := by
  have hcv := cvtColor_ok_of_valid (w.heap aR) hsrc
  constructor
  · simp [convertToGray, hcv]
  · simp [convertToGray, hcv]

/-- Witness for C2 at a concrete world: handle 0 holds a valid 1-by-1 RGBA
buffer, handle 1 a matching gray destination; the call succeeds and writes
the luma value 18 of the pixel (10, 20, 30, 40). -/
theorem convertToGray_valid_success_witness :
    (worldSample.heap 0).validRGBA = true ∧
    ((worldSample.heap 1).validGrayFor (worldSample.heap 0)) = true ∧
    ((convertToGray worldSample 0 1).1 = true ∧
      (convertToGray worldSample 0 1).2.heap 1 =
        ⟨(worldSample.heap 0).rows, (worldSample.heap 0).cols, 1,
          grayData (worldSample.heap 0).data⟩) :=
  ⟨by decide, by decide,
    convertToGray_valid_success worldSample 0 1 (by decide) (by decide)⟩

/-- C4: the result of `convertToGray` depends only on the source buffer's
contents — two invocations whose source cells hold bit-identical data,
each with a valid destination, return the same boolean and leave
bit-identical contents in their destination cells. -/
theorem convertToGray_deterministic (w1 w2 : World) (a1 b1 a2 b2 : Nat)
    (hsame : w1.heap a1 = w2.heap a2)
    (hvalid : (w1.heap a1).validRGBA = true)
    (hd1 : ((w1.heap b1).validGrayFor (w1.heap a1)) = true)
    (hd2 : ((w2.heap b2).validGrayFor (w2.heap a2)) = true) :
    (convertToGray w1 a1 b1).1 = (convertToGray w2 a2 b2).1 ∧
    (convertToGray w1 a1 b1).2.heap b1 = (convertToGray w2 a2 b2).2.heap b2 := by
  have hvalid2 : (w2.heap a2).validRGBA = true := hsame ▸ hvalid
  have hcv1 := cvtColor_ok_of_valid (w1.heap a1) hvalid
  have hcv2 := cvtColor_ok_of_valid (w2.heap a2) hvalid2
  constructor
  · simp [convertToGray, hcv1, hcv2]
  · simp [convertToGray, hcv1, hcv2, hsame]

/-- Witness for C4 at two concrete invocations on the same source cell. -/
theorem convertToGray_deterministic_witness :
    worldSample.heap 0 = worldSample.heap 0 ∧
    (worldSample.heap 0).validRGBA = true ∧
    ((worldSample.heap 1).validGrayFor (worldSample.heap 0)) = true ∧
    ((convertToGray worldSample 0 1).1 = (convertToGray worldSample 0 1).1 ∧
      (convertToGray worldSample 0 1).2.heap 1 =
        (convertToGray worldSample 0 1).2.heap 1) :=
  ⟨rfl, by decide, by decide,
    convertToGray_deterministic worldSample worldSample 0 1 0 1 rfl
      (by decide) (by decide) (by decide)⟩

/-- C5: `getOpenCVVersion` returns a non-empty string, two successive
calls return the same string, and the call leaves the heap and the record
of library conversions unchanged (only the diagnostic log grows). -/
theorem getOpenCVVersion_stable (w : World) :
    (getOpenCVVersion w).1 ≠ "" ∧
    (getOpenCVVersion (getOpenCVVersion w).2).1 = (getOpenCVVersion w).1 ∧
    (getOpenCVVersion w).2.heap = w.heap ∧
    (getOpenCVVersion w).2.libCalls = w.libCalls := by
  refine ⟨?_, rfl, rfl, rfl⟩
  show cvVersionString ≠ ""
  decide

/-- C6: `convertToGray` performs no validation of its own — whatever the
two handles reference, the raw dereferenced source operand is handed to
the library unconditionally (recorded in `libCalls`), and the call returns
`false` exactly when the library itself raised an exception. -/
theorem convertToGray_no_validation (w : World) (a b : Nat) :
    (convertToGray w a b).2.libCalls = w.libCalls ++ [w.heap a] ∧
    ((convertToGray w a b).1 = false ↔
      ∃ e, cvtColorRGBA2GRAY (w.heap a) = Except.error e) := by
  cases hcv : cvtColorRGBA2GRAY (w.heap a) with
  | ok g =>
      refine ⟨by simp [convertToGray, hcv], ?_⟩
      simp [convertToGray, hcv]
  | error e =>
      refine ⟨by simp [convertToGray, hcv], ?_⟩
      simp [convertToGray, hcv]

/-- C7: whenever the underlying conversion raises a library exception,
`convertToGray` appends exactly one log entry, it is error-level, tagged
with the fixed component identifier, and its text carries the exception's
message; the call itself returns only `false`, so the message reaches the
caller in no other way. -/
theorem convertToGray_error_log (w : World) (a b : Nat) (e : CvException)
    (h : cvtColorRGBA2GRAY (w.heap a) = Except.error e) :
    (convertToGray w a b).2.log =
      w.log ++ [⟨LogLevel.error, logTag, msgOpenCVError ++ e.what⟩] ∧
    (convertToGray w a b).1 = false := by
  constructor
  · simp [convertToGray, h]
  · simp [convertToGray, h]

/-- Witness for C7: handle 2 of the sample world holds a 3-channel buffer,
so the modelled library raises its channel-count exception, and the call
logs exactly that message and returns `false`. -/
theorem convertToGray_error_log_witness :
    cvtColorRGBA2GRAY (worldSample.heap 2) = Except.error ⟨msgBadChannels⟩ ∧
    ((convertToGray worldSample 2 1).2.log =
        worldSample.log ++
          [⟨LogLevel.error, logTag,
            msgOpenCVError ++ (⟨msgBadChannels⟩ : CvException).what⟩] ∧
      (convertToGray worldSample 2 1).1 = false) :=
  ⟨rfl, convertToGray_error_log worldSample 2 1 ⟨msgBadChannels⟩ rfl⟩

/-- C8: on every call `getOpenCVVersion` returns the library's version
string and appends exactly two informational log entries, one announcing
the query and one — after it — carrying the obtained version; neither the
heap nor anything else is touched (see also C5's theorem). -/
theorem getOpenCVVersion_log_entries (w : World) :
    (getOpenCVVersion w).1 = cvVersionString ∧
    (getOpenCVVersion w).2.log =
      w.log ++ [⟨LogLevel.info, logTag, msgGettingVersion⟩,
                ⟨LogLevel.info, logTag, msgOpenCVVersionIs ++ cvVersionString⟩] :=
  ⟨rfl, rfl⟩

/-- C9: when the two handles are distinct, `convertToGray` leaves the
source cell untouched, and in fact every heap cell other than the
destination cell, whether the call returns `true` or `false`. -/
theorem convertToGray_preserves_other_cells (w : World) (aR aG c : Nat)
    (hne : aR ≠ aG) (hc : c ≠ aG) :
    (convertToGray w aR aG).2.heap aR = w.heap aR ∧
    (convertToGray w aR aG).2.heap c = w.heap c := by
  cases hcv : cvtColorRGBA2GRAY (w.heap aR) with
  | ok g => exact ⟨by simp [convertToGray, hcv, hne], by simp [convertToGray, hcv, hc]⟩
  | error e => exact ⟨by simp [convertToGray, hcv], by simp [convertToGray, hcv]⟩

/-- Witness for C9 at concrete distinct handles 0 (source), 1
(destination) and 2 (an unrelated cell). -/
theorem convertToGray_preserves_other_cells_witness :
    (0 : Nat) ≠ 1 ∧ (2 : Nat) ≠ 1 ∧
    ((convertToGray worldSample 0 1).2.heap 0 = worldSample.heap 0 ∧
      (convertToGray worldSample 0 1).2.heap 2 = worldSample.heap 2) :=
  ⟨by decide, by decide,
    convertToGray_preserves_other_cells worldSample 0 1 2 (by decide) (by decide)⟩

/-- C10: the conversion mode is the one fixed RGBA-to-gray transform, never
inferred from the buffer or chosen by the caller: for a source pixel the
four interleaved components are consumed positionally as red, green, blue,
alpha — so a 1-by-1 source always yields exactly the luma of its first
three components, the fourth (alpha) component never influences the
output, and the red and blue weights differ, so a BGRA-ordered buffer is
converted with the weights on the wrong channels rather than rejected. -/
theorem convertToGray_fixed_rgba_mode (w : World) (aR aG r g b a a' : Nat)
    (h : w.heap aR = ⟨1, 1, 4, [r, g, b, a]⟩) :
    (convertToGray w aR aG).2.heap aG = ⟨1, 1, 1, [lumaPixel r g b]⟩ ∧
    grayData [r, g, b, a] = grayData [r, g, b, a'] ∧
    lumaPixel 255 0 0 ≠ lumaPixel 0 0 255 := by
  refine ⟨?_, rfl, by decide⟩
  have hcv : cvtColorRGBA2GRAY (w.heap aR) =
      Except.ok ⟨1, 1, 1, [lumaPixel r g b]⟩ := by
    rw [h]
    unfold cvtColorRGBA2GRAY
    simp [grayData]
  simp [convertToGray, hcv]

/-- Witness for C10 at the sample world's source cell (10, 20, 30, 40),
whose luma value is 18. -/
theorem convertToGray_fixed_rgba_mode_witness :
    worldSample.heap 0 = ⟨1, 1, 4, [10, 20, 30, 40]⟩ ∧
    ((convertToGray worldSample 0 1).2.heap 1 =
        ⟨1, 1, 1, [lumaPixel 10 20 30]⟩ ∧
      grayData [10, 20, 30, 40] = grayData [10, 20, 30, 99] ∧
      lumaPixel 255 0 0 ≠ lumaPixel 0 0 255) :=
  ⟨by decide, convertToGray_fixed_rgba_mode worldSample 0 1 10 20 30 40 99 (by decide)⟩
